import Mathlib

/-!
# Verification of the savbes-chatbot widget

Shallow embedding of the two front-end entry points of the repository:

* `src/static/js.js` — the self-installing widget (`initChat`, `addMessage`,
  `sendMessage`, `showContactForm`, `submitContactForm`, `fillPageForms`);
* `src/templates/index.html` — the inline page widget (`sendMessage`,
  `addMessage`, the `DOMContentLoaded` handler, phone-number detection and
  `localStorage` persistence).

Strings are modelled as Lean `String` (lists of characters); the DOM effects
each function performs are modelled as explicit data: a transcript is a list
of rendered messages, console output is a list of strings, timers are
`Option Nat` delays, and so on.  Every definition is translated directly from
the JavaScript source; definitions whose doc comment starts with
`Follows the claim's words` restate a specification sentence instead and are
used only to compare the code against the specification.
-/

set_option autoImplicit false

/-! ## Character and string primitives used by the source -/

/-- Model of the JavaScript whitespace class used by `String.prototype.trim`
and by `\s` in the phone regular expression, restricted to the ASCII
whitespace characters (space, tab, newline, carriage return, vertical tab,
form feed).  The source never manipulates the more exotic Unicode spaces. -/
def jsWhitespace (c : Char) : Bool :=
  c == ' ' || c == '\t' || c == '\n' || c == '\r' || c == '\x0b' || c == '\x0c'

/-- List-level model of `String.prototype.trim`: drop leading and trailing
whitespace characters. -/
def jsTrimL (l : List Char) : List Char :=
  ((l.dropWhile jsWhitespace).reverse.dropWhile jsWhitespace).reverse

/-- Model of `String.prototype.trim` (as in `message.trim()` in both
variants of `sendMessage`). -/
def jsTrim (s : String) : String :=
  String.mk (jsTrimL s.data)

/-- Decides whether the first list is an initial segment of the second;
used to model substring search in `String.prototype.includes` and
`String.prototype.replace` with a string pattern. -/
def matchesAt : List Char → List Char → Bool
  | [], _ => true
  | _ :: _, [] => false
  | p :: ps, c :: cs => p == c && matchesAt ps cs

/-- Occurrence test: `hasSub pat l` is true when `pat` occurs contiguously
inside `l`.  Model of `String.prototype.includes`. -/
def hasSub (pat : List Char) : List Char → Bool
  | [] => matchesAt pat []
  | c :: cs => matchesAt pat (c :: cs) || hasSub pat cs

/-- Model of `s.includes(pat)` from the source. -/
def jsIncludes (s pat : String) : Bool :=
  hasSub pat.data s.data

/-- Replace the first occurrence of `pat` by `rep`, leaving the list
unchanged when there is no occurrence.  Model of JavaScript
`String.prototype.replace` with a *string* pattern, which replaces only the
first occurrence (used for the sentinel token in `addMessage`). -/
def replaceFirstL (pat rep : List Char) : List Char → List Char
  | [] => if pat.isEmpty then rep else []
  | c :: cs =>
    if matchesAt pat (c :: cs) then rep ++ (c :: cs).drop pat.length
    else c :: replaceFirstL pat rep cs

/-- Model of `s.replace(pat, rep)` with a string pattern (first occurrence
only, as in `message.replace("[SHOW_CONTACT_FORM]", "")`). -/
def jsReplaceFirst (s pat rep : String) : String :=
  String.mk (replaceFirstL pat.data rep.data s.data)

/-- Replace every newline character by the four characters `<br>`.
Model of `message.replace(/\n/g, '<br>')` from `addMessage` in
`src/static/js.js` (the `/g` flag makes this one global, unlike the
sentinel replacement). -/
def convNl : List Char → List Char
  | [] => []
  | c :: cs => if c == '\n' then '<' :: 'b' :: 'r' :: '>' :: convNl cs else c :: convNl cs

/-- String form of `convNl`. -/
def convNlS (s : String) : String :=
  String.mk (convNl s.data)

/-! ## Fixed strings of the source -/

/-- Sentinel token recognised in assistant replies
(`src/static/js.js`, `addMessage`). -/
def sentinelToken : String := "[SHOW_CONTACT_FORM]"

/-- Apology rendered by the `catch` branch of `sendMessage` in
`src/static/js.js`. -/
def jsApology : String := "Извините, произошла ошибка. Попробуйте позже."

/-- Apology rendered by the `catch` branch of `sendMessage` in
`src/templates/index.html`. -/
def inlineApology : String := "Извините, произошла ошибка. Пожалуйста, попробуйте еще раз."

/-- Message rendered by `src/static/js.js` when the parsed body carries no
truthy `response` field. -/
def processingErrorMsg : String := "Извините, произошла ошибка при обработке ответа."

/-- Result of the JavaScript string coercion `String(obj)` for a plain
object, produced when an object reaches a DOMString sink such as the
`textContent` setter of the inline variant. -/
def objectCoercion : String := "[object Object]"

/-- Refusal message sent when the contact form is cancelled
(`src/static/js.js`, `showContactForm`). -/
def refusalMessage : String := "Не хочу оставлять контакты"

/-- The fixed `localStorage` key of the inline variant
(`localStorage.setItem('savbes_phone', ...)`). -/
def phoneStorageKey : String := "savbes_phone"

/-- Identifier of the container element the self-installing script looks up
(`document.getElementById('savbes-chat-container')`). -/
def chatContainerId : String := "savbes-chat-container"

/-! ## Transcript rendering -/

/-- One rendered chat message: the role tag and the content assigned to the
message node (via `innerHTML` in `src/static/js.js`, via `textContent` in
`src/templates/index.html`). -/
structure RenderedMsg where
  isUser : Bool
  content : String
deriving DecidableEq

/-- Model of `addMessage(message, isUser)` from `src/static/js.js`
(lines 506–531).  The returned pair is the rendered message node together
with the delay, in milliseconds, of the `setTimeout(showContactForm, 500)`
timer when one is scheduled (`none` when no timer is scheduled).  In the
sentinel branch the source assigns `cleanMessage` — the reply with only the
first occurrence of the token removed and without newline conversion — to
`innerHTML`; in the other branch it assigns `formattedMessage`, the text
with every newline replaced by `<br>`. -/
def addMessageJs (message : String) (isUser : Bool) : RenderedMsg × Option Nat :=
  if !isUser && jsIncludes message sentinelToken then
    ({ isUser := isUser, content := jsReplaceFirst message sentinelToken "" }, some 500)
  else
    ({ isUser := isUser, content := convNlS message }, none)

/-- Model of `addMessage(text, isUser)` from `src/templates/index.html`
(lines 261–270): the text is assigned verbatim to `textContent`; there is no
newline conversion and no sentinel handling. -/
def addMessageInline (text : String) (isUser : Bool) : RenderedMsg :=
  { isUser := isUser, content := text }

/-! ## Response envelope and the self-installing dispatcher -/

/-- Shape of the parsed value found under the `response` key of the JSON
body.  `vStr` is the old bare-string format, `vObj` the new format
`{text: ...}` (only the `text` field is ever read), and `vMissing` stands
for a body whose `response` field is absent, `null` or `undefined`. -/
inductive RespValue where
  | vStr (s : String)
  | vObj (text : String)
  | vMissing
deriving DecidableEq

/-- Outcome of the `fetch` / `response.json()` pair: either a parsed body
(`success`) or a rejected promise from the network request or from JSON
parsing (`failure`), which lands in the `catch` branch. -/
inductive FetchOutcome where
  | success (v : RespValue)
  | failure
deriving DecidableEq

/-- Result of one invocation of `sendMessage` in `src/static/js.js`: the
transcript after the call, whether a network request was issued, and the
delay of the `showContactForm` timer when the rendered reply scheduled
one. -/
structure JsDispatchResult where
  transcript : List RenderedMsg
  requestSent : Bool
  contactFormDelay : Option Nat
deriving DecidableEq

/-- Model of `sendMessage(message)` from `src/static/js.js`
(lines 534–570), as a function of the transcript before the call, the
message argument, and the fetch outcome.

* `if (!message.trim()) return;` — a whitespace-only message is dropped
  before anything happens.
* The user message is rendered optimistically with the *untrimmed* text.
* On `failure` the `catch` branch renders the fixed apology.
* `vMissing` and `vStr ""` fail the `data && data.response` truthiness
  test and render the fixed processing-error message.
* `vObj t` with non-empty `t` passes `typeof data.response === 'object'
  && data.response.text` and renders `t`.
* `vObj ""` has a falsy `text`, so the source calls
  `addMessage(data.response, false)` with the *object*; inside
  `addMessage` the call `message.replace(/\n/g, ...)` then throws a
  `TypeError` before anything is appended, the exception is caught by the
  surrounding `try`, and the apology is rendered instead. -/
def sendMessageJs (t : List RenderedMsg) (message : String) (outcome : FetchOutcome) :
    JsDispatchResult :=
  if jsTrim message = "" then ⟨t, false, none⟩
  else
    let t1 := t ++ [(addMessageJs message true).1]
    match outcome with
    | .failure => ⟨t1 ++ [(addMessageJs jsApology false).1], true, none⟩
    | .success v =>
      match v with
      | .vMissing => ⟨t1 ++ [(addMessageJs processingErrorMsg false).1], true, none⟩
      | .vStr s =>
        if s = "" then ⟨t1 ++ [(addMessageJs processingErrorMsg false).1], true, none⟩
        else ⟨t1 ++ [(addMessageJs s false).1], true, (addMessageJs s false).2⟩
      | .vObj txt =>
        if txt = "" then ⟨t1 ++ [(addMessageJs jsApology false).1], true, none⟩
        else ⟨t1 ++ [(addMessageJs txt false).1], true, (addMessageJs txt false).2⟩

/-! ## Phone-number detection of the inline variant -/

/-- Separator class `[\s\-]` of the phone regular expression. -/
def isSepChar (c : Char) : Bool :=
  jsWhitespace c || c == '-'

/-- Consume exactly `n` ASCII digits (`\d{n}`), returning the consumed
characters and the rest. -/
def takeDigits : Nat → List Char → Option (List Char × List Char)
  | 0, l => some ([], l)
  | _ + 1, [] => none
  | n + 1, c :: cs =>
    if c.isDigit then
      match takeDigits n cs with
      | some (ds, r) => some (c :: ds, r)
      | none => none
    else none

/-- Consume at most one character satisfying `p` (a greedy `X?`). -/
def takeOpt (p : Char → Bool) : List Char → List Char × List Char
  | [] => ([], [])
  | c :: cs => if p c then ([c], cs) else ([], c :: cs)

/-- Match the phone pattern
`(\+7|8)[\s\-]?\(?\d{3}\)?[\s\-]?\d{3}[\s\-]?\d{2}[\s\-]?\d{2}`
(from `src/templates/index.html`, line 246) at the head of the list,
returning the matched characters.  Every optional piece has a character
class disjoint from what may legally follow it, so the greedy
backtracking-free reading below coincides with the regular-expression
semantics. -/
def matchPhoneAt (l : List Char) : Option (List Char) :=
  match
    (if matchesAt ['+', '7'] l then some (['+', '7'], l.drop 2)
     else if matchesAt ['8'] l then some (['8'], l.drop 1)
     else none)
  with
  | none => none
  | some (m0, r0) =>
    let p1 := takeOpt isSepChar r0
    let p2 := takeOpt (fun c => c == '(') p1.2
    match takeDigits 3 p2.2 with
    | none => none
    | some (m3, r3) =>
      let p4 := takeOpt (fun c => c == ')') r3
      let p5 := takeOpt isSepChar p4.2
      match takeDigits 3 p5.2 with
      | none => none
      | some (m6, r6) =>
        let p7 := takeOpt isSepChar r6
        match takeDigits 2 p7.2 with
        | none => none
        | some (m8, r8) =>
          let p9 := takeOpt isSepChar r8
          match takeDigits 2 p9.2 with
          | none => none
          | some (m10, _) =>
            some (m0 ++ p1.1 ++ p2.1 ++ m3 ++ p4.1 ++ p5.1 ++ m6 ++ p7.1 ++ m8 ++ p9.1 ++ m10)

/-- Leftmost search of the phone pattern, as performed by both
`phoneRegex.test(message)` and `message.match(phoneRegex)[0]` (the regular
expression carries no `/g` flag). -/
def phoneSearch : List Char → Option (List Char)
  | [] => none
  | c :: cs =>
    match matchPhoneAt (c :: cs) with
    | some m => some m
    | none => phoneSearch cs

/-- First match of the phone pattern inside `s`, when one exists. -/
def jsPhoneMatch (s : String) : Option String :=
  (phoneSearch s.data).map String.mk

/-- Model of `phoneRegex.test(s)`. -/
def jsPhoneTest (s : String) : Bool :=
  (phoneSearch s.data).isSome

/-! ## Inline-variant dispatcher and persistence -/

/-- State touched by the inline variant: its transcript, the value of the
page form's phone input (`input[name="phone"]`), and the value stored
under the `savbes_phone` key of `localStorage` (`none` when the key is
absent). -/
structure InlineState where
  transcript : List RenderedMsg
  phoneFieldValue : String
  storedPhone : Option String
deriving DecidableEq

/-- Result of one invocation of the inline `sendMessage`. -/
structure InlineDispatchResult where
  state : InlineState
  requestSent : Bool
deriving DecidableEq

/-- Text assigned to `textContent` by `addMessage(data.response, false)` in
the inline variant, for each envelope shape.  The object shape is *not*
inspected: WebIDL coerces a plain object passed to the `textContent` setter
to the string `[object Object]`, and an absent (`undefined` or `null`)
field to the empty string. -/
def inlineReplyContent : RespValue → String
  | .vStr s => s
  | .vObj _ => objectCoercion
  | .vMissing => ""

/-- Model of `sendMessage()` from `src/templates/index.html`
(lines 215–258), as a function of the prior state, the raw content of the
input field, and the fetch outcome.

* The input is trimmed; an empty result returns before any effect.
* The trimmed user message is rendered optimistically.
* On success the reply is rendered through `addMessage(data.response,
  false)`, and then `phoneRegex` is tested against `message` — the user's
  trimmed message, not the reply; a match is written both into the page
  form's phone input and into `localStorage` under `savbes_phone`.
* On failure the `catch` branch renders the fixed apology and the phone
  detection never runs. -/
def sendMessageInline (st : InlineState) (rawInput : String) (outcome : FetchOutcome) :
    InlineDispatchResult :=
  let message := jsTrim rawInput
  if message = "" then ⟨st, false⟩
  else
    let st1 := { st with transcript := st.transcript ++ [addMessageInline message true] }
    match outcome with
    | .failure =>
      ⟨{ st1 with transcript := st1.transcript ++ [addMessageInline inlineApology false] }, true⟩
    | .success v =>
      let st2 := { st1 with
        transcript := st1.transcript ++ [addMessageInline (inlineReplyContent v) false] }
      match jsPhoneMatch message with
      | some p => ⟨{ st2 with phoneFieldValue := p, storedPhone := some p }, true⟩
      | none => ⟨st2, true⟩

/-- Model of the `DOMContentLoaded` handler of `src/templates/index.html`
(lines 313–319): read `savbes_phone` from `localStorage`; when the stored
value is truthy (present and non-empty), write it into the page form's
phone input, else leave the input as it is. -/
def inlinePageLoad (stored : Option String) (currentFieldValue : String) : String :=
  match stored with
  | some p => if p = "" then currentFieldValue else p
  | none => currentFieldValue

/-! ## Contact-form submission (self-installing variant) -/

/-- The transient `userData` record of `src/static/js.js`.  The source keeps
the three captured input values as plain strings (an untouched input yields
the empty string). -/
structure ContactData where
  name : String
  phone : String
  email : String
deriving DecidableEq

/-- The synthesized chat message built by `submitContactForm`
(lines 399–402 of `src/static/js.js`): the name followed by a comma when
present, then the phone, then a comma and the email when present. -/
def contactText (name phone email : String) : String :=
  (if name = "" then "" else name ++ ", ") ++ phone ++
    (if email = "" then "" else ", " ++ email)

/-- Result of one invocation of `submitContactForm`. -/
structure SubmitResult where
  overlayRemoved : Bool
  recorded : Option ContactData
  formsFilled : Bool
  dispatched : List String
  alerted : Bool
deriving DecidableEq

/-- Model of `submitContactForm(formDiv)` from `src/static/js.js`
(lines 379–409), as a function of the three input values read from the
overlay.  When the phone value is truthy (non-empty) the overlay node is
removed, `userData` is overwritten with the captured triple, the host-page
autofill runs once, and the synthesized contact text is passed exactly once
to `sendMessage`; otherwise only an `alert` is raised and nothing else
happens. -/
def submitContactForm (name phone email : String) : SubmitResult :=
  if phone = "" then
    { overlayRemoved := false, recorded := none, formsFilled := false,
      dispatched := [], alerted := true }
  else
    { overlayRemoved := true, recorded := some ⟨name, phone, email⟩, formsFilled := true,
      dispatched := [contactText name phone email], alerted := false }

/-! ## Initialization of the self-installing variant -/

/-- Observable result of `initChat`: whether the `<style>` element was
appended to the document head, whether the widget markup was appended to
the target container, whether initialization aborted early, and the console
error/info lines produced.  The function being a total Lean function models
the fact that `initChat` returns normally (no exception reaches the host
page) on both paths. -/
structure InitResult where
  stylesInjected : Bool
  chatInjected : Bool
  aborted : Bool
  consoleErrors : List String
  consoleInfos : List String
deriving DecidableEq

/-- Console error printed when the container is missing. -/
def containerMissingError : String :=
  "САВБЕС чат-бот: контейнер #savbes-chat-container не найден на странице"

/-- Console info printed when the container is missing. -/
def containerMissingInfo : String :=
  "Добавьте <div id=\"savbes-chat-container\"></div> в нужное место на странице"

/-- Model of `initChat()` from `src/static/js.js` (lines 16–605), applied to
the list of element identifiers present in the host document.  The style
element is appended to the head (line 284) *before* the container lookup
(line 287); when `document.getElementById('savbes-chat-container')` finds
nothing, the error and info lines are logged and the function returns
before any widget markup is created. -/
def initChat (domIds : List String) : InitResult :=
  if domIds.contains chatContainerId then
    { stylesInjected := true, chatInjected := true, aborted := false,
      consoleErrors := [], consoleInfos := [] }
  else
    { stylesInjected := true, chatInjected := false, aborted := true,
      consoleErrors := [containerMissingError], consoleInfos := [containerMissingInfo] }

/-! ## Host-page autofill (`fillPageForms`) -/

/-- One `<input>` element of the host document, as seen by
`fillPageForms`: its attributes, its current value, whether
`input.closest('.savbes-chat-block')` finds the widget (the element lies in
the widget's subtree), and, when the element has a `<form>` ancestor,
whether `form.closest('.savbes-chat-block')` finds the widget for that form
(`none` when the element has no form ancestor, in which case the
`:not(form *)` pass handles it). -/
structure PageInput where
  ty : String
  nm : String
  ph : String
  classes : List String
  value : String
  inWidget : Bool
  formAncestorInWidget : Option Bool
deriving DecidableEq

/-- Selector list for phone fields inside a form:
`input[type="tel"], input[name="phone"], input[name*="PHONE"],
input[placeholder*="елефон"], .t-input-phonemask`. -/
def formPhoneSel (i : PageInput) : Bool :=
  i.ty == "tel" || i.nm == "phone" || hasSub "PHONE".data i.nm.data ||
    hasSub "елефон".data i.ph.data || i.classes.contains "t-input-phonemask"

/-- Selector list for name fields inside a form:
`input[name="name"], input[name*="NAME"], input[placeholder*="имя"],
input[placeholder*="Имя"], input.t-input-name`. -/
def formNameSel (i : PageInput) : Bool :=
  i.nm == "name" || hasSub "NAME".data i.nm.data || hasSub "имя".data i.ph.data ||
    hasSub "Имя".data i.ph.data || i.classes.contains "t-input-name"

/-- Selector list for email fields inside a form:
`input[type="email"], input[name="email"], input[name*="EMAIL"],
input[placeholder*="mail"], input[placeholder*="Mail"]`. -/
def formEmailSel (i : PageInput) : Bool :=
  i.ty == "email" || i.nm == "email" || hasSub "EMAIL".data i.nm.data ||
    hasSub "mail".data i.ph.data || hasSub "Mail".data i.ph.data

/-- Selector list for phone fields outside any form:
`input[type="tel"]:not(form *), input[name*="phone"]:not(form *),
input[placeholder*="елефон"]:not(form *)`. -/
def loosePhoneSel (i : PageInput) : Bool :=
  i.ty == "tel" || hasSub "phone".data i.nm.data || hasSub "елефон".data i.ph.data

/-- Selector list for name fields outside any form:
`input[name*="name"]:not(form *), input[placeholder*="мя"]:not(form *)`. -/
def looseNameSel (i : PageInput) : Bool :=
  hasSub "name".data i.nm.data || hasSub "мя".data i.ph.data

/-- Selector list for email fields outside any form:
`input[type="email"]:not(form *), input[name*="email"]:not(form *),
input[placeholder*="mail"]:not(form *)`. -/
def looseEmailSel (i : PageInput) : Bool :=
  i.ty == "email" || hasSub "email".data i.nm.data || hasSub "mail".data i.ph.data

/-- Effect of one invocation of `fillPageForms(data)` (lines 412–503 of
`src/static/js.js`) on one input element: the element's value after the
call, together with the number of synthetic events (`input` plus `change`)
dispatched on it.

For an element inside a form, the skip test is
`form.closest('.savbes-chat-block')` — a check on the *form*, not on the
element — after which the phone, name and email selector groups run in
order, each setting the value and dispatching two events when the
corresponding datum is truthy and the selector matches.  For an element
outside any form, each of the three groups checks
`input.closest('.savbes-chat-block')` on the element itself and skips it
when it lies in the widget subtree. -/
def fillOne (data : ContactData) (i : PageInput) : String × Nat :=
  match i.formAncestorInWidget with
  | some true => (i.value, 0)
  | some false =>
    let s1 : String × Nat :=
      if ¬ data.phone = "" ∧ formPhoneSel i = true then (data.phone, 2) else (i.value, 0)
    let s2 : String × Nat :=
      if ¬ data.name = "" ∧ formNameSel i = true then (data.name, s1.2 + 2) else s1
    let s3 : String × Nat :=
      if ¬ data.email = "" ∧ formEmailSel i = true then (data.email, s2.2 + 2) else s2
    s3
  | none =>
    let s1 : String × Nat :=
      if ¬ data.phone = "" ∧ loosePhoneSel i = true ∧ i.inWidget = false
      then (data.phone, 2) else (i.value, 0)
    let s2 : String × Nat :=
      if ¬ data.name = "" ∧ looseNameSel i = true ∧ i.inWidget = false
      then (data.name, s1.2 + 2) else s1
    let s3 : String × Nat :=
      if ¬ data.email = "" ∧ looseEmailSel i = true ∧ i.inWidget = false
      then (data.email, s2.2 + 2) else s2
    s3

/-- Whole-document form of the autofill: every input of the document is
processed independently by `fillOne`. -/
def fillPageForms (data : ContactData) (inputs : List PageInput) : List (String × Nat) :=
  inputs.map (fillOne data)

/-! ## Helper lemmas about the string primitives -/

/-- Matching a pattern against itself followed by anything succeeds. -/
theorem matchesAt_self_append (pat r : List Char) : matchesAt pat (pat ++ r) = true := by
  induction pat with
  | nil => simp [matchesAt]
  | cons p ps ih => simp [matchesAt, ih]

/-- A match at the head of the list is in particular an occurrence. -/
theorem hasSub_of_matchesAt (pat l : List Char) (h : matchesAt pat l = true) :
    hasSub pat l = true := by
  cases l with
  | nil => simpa [hasSub] using h
  | cons c cs => simp [hasSub, h]

/-- An occurrence survives prepending a character. -/
theorem hasSub_cons_of (pat : List Char) (c : Char) (l : List Char)
    (h : hasSub pat l = true) : hasSub pat (c :: l) = true := by
  simp [hasSub, h]

/-- A pattern occurs in any list that contains it contiguously. -/
theorem hasSub_middle (a pat b : List Char) : hasSub pat (a ++ (pat ++ b)) = true := by
  induction a with
  | nil => exact hasSub_of_matchesAt pat (pat ++ b) (matchesAt_self_append pat b)
  | cons c a ih => simp [hasSub, ih]

/-- Newline conversion is the identity on newline-free lists. -/
theorem convNl_id (l : List Char) (h : ∀ c ∈ l, ¬ c = '\n') : convNl l = l := by
  induction l with
  | nil => rfl
  | cons c cs ih =>
    have hc : ¬ c = '\n' := h c (by simp)
    simp [convNl, hc, ih (fun x hx => h x (by simp [hx]))]

/-- A head match by a newline-free pattern survives newline conversion. -/
theorem matchesAt_convNl (pat : List Char) (hn : ∀ c ∈ pat, ¬ c = '\n') :
    ∀ l : List Char, matchesAt pat l = true → matchesAt pat (convNl l) = true := by
  induction pat with
  | nil => intro l _; simp [matchesAt]
  | cons p ps ih =>
    intro l h
    cases l with
    | nil => simp [matchesAt] at h
    | cons c cs =>
      simp [matchesAt] at h
      obtain ⟨hpc, hrest⟩ := h
      have hp : ¬ p = '\n' := hn p (by simp)
      have hc : ¬ c = '\n' := by rw [← hpc]; exact hp
      have htail := ih (fun x hx => hn x (by simp [hx])) cs hrest
      simp [convNl, hc, matchesAt, hpc, htail]

/-- An occurrence of a newline-free pattern survives newline conversion. -/
theorem hasSub_convNl (pat : List Char) (hn : ∀ c ∈ pat, ¬ c = '\n')
    (l : List Char) (h : hasSub pat l = true) : hasSub pat (convNl l) = true := by
  induction l with
  | nil => exact h
  | cons c cs ih =>
    rw [hasSub] at h
    rcases Bool.or_eq_true _ _ |>.mp h with hm | hs
    · exact hasSub_of_matchesAt pat (convNl (c :: cs)) (matchesAt_convNl pat hn (c :: cs) hm)
    · have h2 := ih hs
      by_cases hc : c = '\n'
      · simp only [convNl, hc, beq_self_eq_true, if_true]
        exact hasSub_cons_of _ _ _ (hasSub_cons_of _ _ _ (hasSub_cons_of _ _ _
          (hasSub_cons_of _ _ _ h2)))
      · simp only [convNl, beq_iff_eq, hc, if_false]
        exact hasSub_cons_of _ _ _ h2

/-- Dropping the whitespace class from an all-whitespace list empties it. -/
theorem dropWhile_ws_nil (l : List Char) (h : ∀ c ∈ l, jsWhitespace c = true) :
    l.dropWhile jsWhitespace = [] := by
  induction l with
  | nil => rfl
  | cons c cs ih =>
    rw [List.dropWhile_cons, if_pos (h c (by simp))]
    exact ih (fun x hx => h x (by simp [hx]))

/-- Trimming an all-whitespace string yields the empty string. -/
theorem jsTrim_ws (s : String) (h : ∀ c ∈ s.data, jsWhitespace c = true) :
    jsTrim s = "" := by
  simp [jsTrim, jsTrimL, dropWhile_ws_nil s.data h, List.dropWhile]

/-- Rebuilding a string from its character list is the identity. -/
theorem strMk_data (s : String) : String.mk s.data = s := rfl

/-- The character list of a concatenation is the concatenation of the
character lists. -/
theorem strData_append (a b : String) : (a ++ b).data = a.data ++ b.data := rfl

/-- Newline conversion is the identity on newline-free strings. -/
theorem convNlS_id (s : String) (h : ∀ c ∈ s.data, ¬ c = '\n') : convNlS s = s := by
  rw [convNlS, convNl_id s.data h, strMk_data]

/-- The middle part of a three-way concatenation is a substring. -/
theorem jsIncludes_middle (a x b : String) : jsIncludes (a ++ x ++ b) x = true := by
  rw [jsIncludes, strData_append, strData_append, List.append_assoc]
  exact hasSub_middle a.data x.data b.data

/-- A string is a substring of itself followed by anything. -/
theorem jsIncludes_left (x b : String) : jsIncludes (x ++ b) x = true := by
  rw [jsIncludes, strData_append]
  simpa using hasSub_middle [] x.data b.data

/-- A string is a substring of anything followed by itself. -/
theorem jsIncludes_right (a x : String) : jsIncludes (a ++ x) x = true := by
  rw [jsIncludes, strData_append]
  have := hasSub_middle a.data x.data []
  simpa using this

/-- Concatenation of strings is associative. -/
theorem strAppend_assoc (a b c : String) : a ++ b ++ c = a ++ (b ++ c) := by
  cases a with
  | mk la =>
    cases b with
    | mk lb =>
      cases c with
      | mk lc => exact congrArg String.mk (List.append_assoc la lb lc)

/-! ## Claims -/

/-- C1 (counterexample): the claim requires the displayed text to equal the
reply with *every* occurrence of the sentinel token removed.  On the reply
consisting of the token twice, `addMessage` removes only the first
occurrence (JavaScript `replace` with a string pattern), so the displayed
text still contains the token and is not the empty string the claim
demands; the overlay timer is nevertheless scheduled. -/
theorem claim_C1_counterexample :
    jsIncludes (sentinelToken ++ sentinelToken) sentinelToken = true ∧
    ¬ (addMessageJs (sentinelToken ++ sentinelToken) false).1.content = "" ∧
    jsIncludes ((addMessageJs (sentinelToken ++ sentinelToken) false).1.content)
      sentinelToken = true ∧
    (addMessageJs (sentinelToken ++ sentinelToken) false).2 = some 500 := by decide

/-- C1 (amended): for every assistant reply containing the sentinel token,
rendering it with `addMessage(·, false)` schedules the contact-form overlay
after the fixed 500 ms delay and displays the reply text with the *first*
occurrence of the token removed. -/
theorem claim_C1 (m : String) (h : jsIncludes m sentinelToken = true) :
    addMessageJs m false = (⟨false, jsReplaceFirst m sentinelToken ""⟩, some 500) := by
  simp [addMessageJs, h]

/-- Witness for C1 at the concrete reply `"[SHOW_CONTACT_FORM]Оставьте контакты"`. -/
theorem claim_C1_witness :
    jsIncludes (sentinelToken ++ "Оставьте контакты") sentinelToken = true ∧
    addMessageJs (sentinelToken ++ "Оставьте контакты") false =
      (⟨false, jsReplaceFirst (sentinelToken ++ "Оставьте контакты") sentinelToken ""⟩,
        some 500) :=
  ⟨by decide, claim_C1 _ (by decide)⟩

/-- C4 (confirmed): submitting the contact overlay with a non-empty phone
value removes the overlay, records the captured triple in the in-memory
`userData` object, runs the host-page autofill once, and passes exactly one
synthesized message to the message dispatcher; that message contains the
phone, and the name and email whenever they were provided. -/
theorem claim_C4 (name phone email : String) (h : ¬ phone = "") :
    submitContactForm name phone email =
      ⟨true, some ⟨name, phone, email⟩, true, [contactText name phone email], false⟩ ∧
    jsIncludes (contactText name phone email) phone = true ∧
    (¬ name = "" → jsIncludes (contactText name phone email) name = true) ∧
    (¬ email = "" → jsIncludes (contactText name phone email) email = true) := by
  refine ⟨by simp [submitContactForm, h], ?_, ?_, ?_⟩
  · unfold contactText
    exact jsIncludes_middle _ phone _
  · intro hn
    unfold contactText
    rw [if_neg hn, strAppend_assoc, strAppend_assoc]
    exact jsIncludes_left name _
  · intro he
    unfold contactText
    rw [if_neg he, ← strAppend_assoc]
    exact jsIncludes_right _ email

/-- Witness for C4 at a concrete submission with all three fields. -/
theorem claim_C4_witness :
    ¬ "89001234567" = "" ∧
    (submitContactForm "Иван" "89001234567" "ivan@mail.ru" =
      ⟨true, some ⟨"Иван", "89001234567", "ivan@mail.ru"⟩, true,
        [contactText "Иван" "89001234567" "ivan@mail.ru"], false⟩ ∧
    jsIncludes (contactText "Иван" "89001234567" "ivan@mail.ru") "89001234567" = true ∧
    (¬ "Иван" = "" → jsIncludes (contactText "Иван" "89001234567" "ivan@mail.ru") "Иван" = true) ∧
    (¬ "ivan@mail.ru" = "" →
      jsIncludes (contactText "Иван" "89001234567" "ivan@mail.ru") "ivan@mail.ru" = true)) :=
  ⟨by decide, claim_C4 "Иван" "89001234567" "ivan@mail.ru" (by decide)⟩

/-- C7 (confirmed): an empty or whitespace-only input is rejected by the
trim guard of both dispatchers before any effect: no network request is
issued, nothing is appended to the transcript, and (in the inline variant)
the phone field and local storage are untouched, whatever the would-be
fetch outcome. -/
theorem claim_C7 (t : List RenderedMsg) (st : InlineState) (m : String) (o : FetchOutcome)
    (h : ∀ c ∈ m.data, jsWhitespace c = true) :
    sendMessageJs t m o = ⟨t, false, none⟩ ∧ sendMessageInline st m o = ⟨st, false⟩ := by
  have ht : jsTrim m = "" := jsTrim_ws m h
  exact ⟨by simp [sendMessageJs, ht], by simp [sendMessageInline, ht]⟩

/-- Witness for C7 at the whitespace-only input consisting of spaces, a tab
and a newline. -/
theorem claim_C7_witness :
    (∀ c ∈ (" \t\n ").data, jsWhitespace c = true) ∧
    (sendMessageJs [] " \t\n " .failure = ⟨[], false, none⟩ ∧
      sendMessageInline ⟨[], "", none⟩ " \t\n " .failure = ⟨⟨[], "", none⟩, false⟩) :=
  ⟨by decide, claim_C7 [] ⟨[], "", none⟩ " \t\n " .failure (by decide)⟩

/-- C8 (confirmed): when the host document holds no element with the fixed
container identifier, `initChat` logs the error and the info line to the
console, aborts before creating any widget markup, and returns normally
(the model being a total function, no exception reaches the host page).
The style element appended before the lookup is a stylesheet, not widget
UI. -/
theorem claim_C8 (domIds : List String) (h : domIds.contains chatContainerId = false) :
    initChat domIds =
      ⟨true, false, true, [containerMissingError], [containerMissingInfo]⟩ := by
  unfold initChat
  rw [if_neg (fun hc => Bool.false_ne_true (h ▸ hc))]

/-- Witness for C8 on a document holding only unrelated identifiers. -/
theorem claim_C8_witness :
    (["header", "contactForm", "phoneForm"].contains chatContainerId = false) ∧
    initChat ["header", "contactForm", "phoneForm"] =
      ⟨true, false, true, [containerMissingError], [containerMissingInfo]⟩ :=
  ⟨by decide, claim_C8 ["header", "contactForm", "phoneForm"] (by decide)⟩

/-- C10 (confirmed): sentinel handling is gated on `!isUser`; a user-origin
message never schedules the contact-form overlay, and its displayed content
is the newline-converted text with the sentinel token, when present, left
in place. -/
theorem claim_C10 (m : String) (h : jsIncludes m sentinelToken = true) :
    addMessageJs m true = (⟨true, convNlS m⟩, none) ∧
    jsIncludes ((addMessageJs m true).1.content) sentinelToken = true := by
  refine ⟨by simp [addMessageJs], ?_⟩
  have h1 : (addMessageJs m true).1.content = convNlS m := by simp [addMessageJs]
  rw [h1]
  have hn : ∀ c ∈ sentinelToken.data, ¬ c = '\n' := by decide
  exact hasSub_convNl sentinelToken.data hn m.data h

/-- Witness for C10 at a concrete user message containing the sentinel. -/
theorem claim_C10_witness :
    jsIncludes ("хочу " ++ sentinelToken) sentinelToken = true ∧
    (addMessageJs ("хочу " ++ sentinelToken) true =
      (⟨true, convNlS ("хочу " ++ sentinelToken)⟩, none) ∧
    jsIncludes ((addMessageJs ("хочу " ++ sentinelToken) true).1.content)
      sentinelToken = true) :=
  ⟨by decide, claim_C10 ("хочу " ++ sentinelToken) (by decide)⟩

/-- C2 (counterexample): the claim quantifies over every string X and over
both entry-point variants.  The inline variant never inspects the object
envelope: `addMessage(data.response, false)` assigns the object to
`textContent`, which renders the coercion `[object Object]` instead of X.
In the self-installing variant an empty X makes `data.response.text` falsy,
the object itself reaches `addMessage`, `message.replace` throws, and the
caught error renders the apology instead of X; a newline in X is rendered
as `<br>`, so the displayed content differs from X as well. -/
theorem claim_C2_counterexample :
    ((sendMessageInline ⟨[], "", none⟩ "hi" (.success (.vObj "Ок"))).state.transcript =
      [⟨true, "hi"⟩, ⟨false, objectCoercion⟩] ∧ ¬ objectCoercion = "Ок") ∧
    (sendMessageJs [] "hi" (.success (.vObj ""))).transcript =
      [⟨true, "hi"⟩, ⟨false, jsApology⟩] ∧
    ((sendMessageJs [] "hi" (.success (.vObj "a\nb"))).transcript =
      [⟨true, "hi"⟩, ⟨false, "a<br>b"⟩] ∧ ¬ ("a<br>b" = "a\nb")) := by decide

/-- C2 (amended): in the self-installing variant both envelope shapes are
accepted by the dispatcher — for every non-empty, newline-free and
sentinel-free X, a successful `{response: {text: X}}` and a successful
`{response: X}` both render the assistant message X.  The inline variant
accepts only the bare-string shape; it renders the object envelope as its
string coercion. -/
theorem claim_C2 (t : List RenderedMsg) (m X : String)
    (hm : ¬ jsTrim m = "") (hX : ¬ X = "")
    (hnl : ∀ c ∈ X.data, ¬ c = '\n') (hns : jsIncludes X sentinelToken = false) :
    (sendMessageJs t m (.success (.vObj X))).transcript =
      t ++ [(addMessageJs m true).1, ⟨false, X⟩] ∧
    (sendMessageJs t m (.success (.vStr X))).transcript =
      t ++ [(addMessageJs m true).1, ⟨false, X⟩] := by
  have hr : addMessageJs X false = (⟨false, X⟩, none) := by
    simp [addMessageJs, hns, convNlS_id X hnl]
  exact ⟨by simp [sendMessageJs, hm, hX, hr], by simp [sendMessageJs, hm, hX, hr]⟩

/-- Witness for C2 at the concrete exchange `"привет"` / `"Ок"`. -/
theorem claim_C2_witness :
    (¬ jsTrim "привет" = "" ∧ ¬ "Ок" = "" ∧ (∀ c ∈ ("Ок").data, ¬ c = '\n') ∧
      jsIncludes "Ок" sentinelToken = false) ∧
    ((sendMessageJs [] "привет" (.success (.vObj "Ок"))).transcript =
      [] ++ [(addMessageJs "привет" true).1, ⟨false, "Ок"⟩] ∧
    (sendMessageJs [] "привет" (.success (.vStr "Ок"))).transcript =
      [] ++ [(addMessageJs "привет" true).1, ⟨false, "Ок"⟩]) :=
  ⟨⟨by decide, by decide, by decide, by decide⟩,
    claim_C2 [] "привет" "Ок" (by decide) (by decide) (by decide) (by decide)⟩

/-- C3 (counterexample): the claim quantifies over every X and both
variants.  The inline variant assigns X verbatim to `textContent`, so a
newline is not converted to a line break; in the self-installing variant a
reply containing the sentinel token takes the sentinel branch, which strips
the token and skips newline conversion, and an empty X fails the
truthiness test and renders the fixed processing-error message. -/
theorem claim_C3_counterexample :
    ((sendMessageInline ⟨[], "", none⟩ "hi" (.success (.vStr "a\nb"))).state.transcript =
      [⟨true, "hi"⟩, ⟨false, "a\nb"⟩] ∧
      convNlS "a\nb" = "a<br>b" ∧ ¬ ("a\nb" = "a<br>b")) ∧
    ((sendMessageJs [] "hi" (.success (.vStr (sentinelToken ++ "\nзаявка")))).transcript =
      [⟨true, "hi"⟩, ⟨false, "\nзаявка"⟩] ∧
      ¬ ("\nзаявка" = convNlS (sentinelToken ++ "\nзаявка"))) ∧
    ((sendMessageJs [] "hi" (.success (.vStr ""))).transcript =
      [⟨true, "hi"⟩, ⟨false, processingErrorMsg⟩] ∧ ¬ processingErrorMsg = "") := by decide

/-- C3 (amended): in the self-installing variant, for every non-empty,
sentinel-free X, a successful `{response: X}` renders the assistant message
X with every newline replaced by a `<br>` line break; the inline variant
renders X verbatim as text content, without newline conversion. -/
theorem claim_C3 (t : List RenderedMsg) (st : InlineState) (m X : String)
    (hm : ¬ jsTrim m = "") (hX : ¬ X = "") (hns : jsIncludes X sentinelToken = false) :
    (sendMessageJs t m (.success (.vStr X))).transcript =
      t ++ [(addMessageJs m true).1, ⟨false, convNlS X⟩] ∧
    (sendMessageInline st m (.success (.vStr X))).state.transcript =
      st.transcript ++ [⟨true, jsTrim m⟩, ⟨false, X⟩] := by
  have hr : addMessageJs X false = (⟨false, convNlS X⟩, none) := by
    simp [addMessageJs, hns]
  refine ⟨by simp [sendMessageJs, hm, hX, hr], ?_⟩
  cases hpm : jsPhoneMatch (jsTrim m) with
  | none => simp [sendMessageInline, hm, hpm, addMessageInline, inlineReplyContent]
  | some p => simp [sendMessageInline, hm, hpm, addMessageInline, inlineReplyContent]

/-- Witness for C3 at the concrete exchange `"привет"` / `"Да.\nКонечно."`. -/
theorem claim_C3_witness :
    (¬ jsTrim "привет" = "" ∧ ¬ "Да.\nКонечно." = "" ∧
      jsIncludes "Да.\nКонечно." sentinelToken = false) ∧
    ((sendMessageJs [] "привет" (.success (.vStr "Да.\nКонечно."))).transcript =
      [] ++ [(addMessageJs "привет" true).1, ⟨false, convNlS "Да.\nКонечно."⟩] ∧
    (sendMessageInline ⟨[], "", none⟩ "привет"
        (.success (.vStr "Да.\nКонечно."))).state.transcript =
      ([] : List RenderedMsg) ++ [⟨true, jsTrim "привет"⟩, ⟨false, "Да.\nКонечно."⟩]) :=
  ⟨⟨by decide, by decide, by decide⟩,
    claim_C3 [] ⟨[], "", none⟩ "привет" "Да.\nКонечно." (by decide) (by decide) (by decide)⟩

/-- C5 (counterexample): the detection regular expression is tested against
`message` — the user's outgoing text — not against the assistant's reply.
With a user message containing no phone number and a reply that matches the
pattern, nothing is written to local storage and the page form's phone
input stays empty, contradicting the claim. -/
theorem claim_C5_counterexample :
    jsPhoneTest "+7 123 456 78 90" = true ∧
    (sendMessageInline ⟨[], "", none⟩ "привет"
      (.success (.vStr "+7 123 456 78 90"))).state.storedPhone = none ∧
    (sendMessageInline ⟨[], "", none⟩ "привет"
      (.success (.vStr "+7 123 456 78 90"))).state.phoneFieldValue = "" := by decide

/-- C5 (amended): in the inline variant, when the *user's* trimmed message
contains a phone number matching the detection pattern and the dispatch
succeeds, the first match is written into the page form's phone input and
stored under the fixed local-storage key `savbes_phone`; on the next page
load a non-empty stored value prepopulates the phone input. -/
theorem claim_C5 (st : InlineState) (m p : String) (v : RespValue)
    (hm : ¬ jsTrim m = "") (hp : jsPhoneMatch (jsTrim m) = some p) (hp0 : ¬ p = "") :
    (sendMessageInline st m (.success v)).state.storedPhone = some p ∧
    (sendMessageInline st m (.success v)).state.phoneFieldValue = p ∧
    inlinePageLoad (some p) "" = p := by
  refine ⟨?_, ?_, by simp [inlinePageLoad, hp0]⟩ <;> simp [sendMessageInline, hm, hp]

/-- Witness for C5 at the concrete user message `" 89001234567 "`. -/
theorem claim_C5_witness :
    (¬ jsTrim " 89001234567 " = "" ∧
      jsPhoneMatch (jsTrim " 89001234567 ") = some "89001234567" ∧
      ¬ "89001234567" = "") ∧
    ((sendMessageInline ⟨[], "", none⟩ " 89001234567 "
        (.success (.vStr "Спасибо"))).state.storedPhone = some "89001234567" ∧
    (sendMessageInline ⟨[], "", none⟩ " 89001234567 "
        (.success (.vStr "Спасибо"))).state.phoneFieldValue = "89001234567" ∧
    inlinePageLoad (some "89001234567") "" = "89001234567") :=
  ⟨⟨by decide, by decide, by decide⟩,
    claim_C5 ⟨[], "", none⟩ " 89001234567 " "89001234567" (.vStr "Спасибо")
      (by decide) (by decide) (by decide)⟩

/-- C6 (confirmed): when the fetch or the body parsing of a dispatched
non-empty message fails, the `catch` branch of each variant appends exactly
one fixed apology as an assistant turn after the optimistically rendered
user message; nothing else in the prior transcript is touched, no entry is
duplicated, no overlay timer is scheduled, and the dispatcher returns
normally (the model is a total function, so no exception escapes). -/
theorem claim_C6 (t : List RenderedMsg) (st : InlineState) (m : String)
    (h : ¬ jsTrim m = "") :
    sendMessageJs t m .failure =
      ⟨t ++ [(addMessageJs m true).1, ⟨false, jsApology⟩], true, none⟩ ∧
    sendMessageInline st m .failure =
      ⟨⟨st.transcript ++ [⟨true, jsTrim m⟩, ⟨false, inlineApology⟩],
        st.phoneFieldValue, st.storedPhone⟩, true⟩ := by
  have ha : (addMessageJs jsApology false).1 = ⟨false, jsApology⟩ := by decide
  exact ⟨by simp [sendMessageJs, h, ha],
    by simp [sendMessageInline, h, addMessageInline]⟩

/-- Witness for C6 at the concrete message `"привет"`. -/
theorem claim_C6_witness :
    ¬ jsTrim "привет" = "" ∧
    (sendMessageJs [] "привет" .failure =
      ⟨[] ++ [(addMessageJs "привет" true).1, ⟨false, jsApology⟩], true, none⟩ ∧
    sendMessageInline ⟨[], "", none⟩ "привет" .failure =
      ⟨⟨([] : List RenderedMsg) ++ [⟨true, jsTrim "привет"⟩, ⟨false, inlineApology⟩],
        "", none⟩, true⟩) :=
  ⟨by decide, claim_C6 [] ⟨[], "", none⟩ "привет" (by decide)⟩

/-- C9 (counterexample): in the per-form pass the skip test is
`form.closest('.savbes-chat-block')`, a check on the enclosing form rather
than on the input.  When the host page nests the chat container inside a
`<form>` of its own, that form is not inside the widget, so the pass
descends into it — and into the widget subtree it contains.  A contact-form
phone input of the widget (`type="tel"`, placeholder `"Ваш телефон"`, still
present when a second sentinel reply opened another overlay) then has its
value overwritten and receives the two synthetic events, although it lies
inside the widget subtree. -/
theorem claim_C9_counterexample :
    fillOne ⟨"", "89001234567", ""⟩
        ⟨"tel", "", "Ваш телефон", [], "", true, some false⟩ =
      ("89001234567", 2) ∧
    (⟨"tel", "", "Ваш телефон", [], "", true, some false⟩ : PageInput).inWidget = true ∧
    ¬ (("89001234567", 2) = ((⟨"tel", "", "Ваш телефон", [], "", true,
      some false⟩ : PageInput).value, 0)) := by decide

/-- C9 (amended): an input inside the widget subtree is left unchanged, with
no synthetic event dispatched, whenever it is not enclosed by a host-page
form lying outside the widget: the out-of-form pass checks the element
itself, and the per-form pass skips every form that is inside the widget.
Only when the widget is nested inside a host-page form can a widget-subtree
input be modified. -/
theorem claim_C9 (data : ContactData) (i : PageInput)
    (hw : i.inWidget = true) (hf : ¬ i.formAncestorInWidget = some false) :
    fillOne data i = (i.value, 0) := by
  cases hfa : i.formAncestorInWidget with
  | none => simp [fillOne, hfa, hw]
  | some b =>
    cases b with
    | true => simp [fillOne, hfa]
    | false => exact absurd hfa hf

/-- Witness for C9 at the widget's own chat input (no form ancestor). -/
theorem claim_C9_witness :
    ((⟨"text", "", "Введите ваше сообщение...", [], "", true, none⟩ :
      PageInput).inWidget = true ∧
    ¬ (⟨"text", "", "Введите ваше сообщение...", [], "", true, none⟩ :
      PageInput).formAncestorInWidget = some false) ∧
    fillOne ⟨"Иван", "89001234567", "ivan@mail.ru"⟩
        ⟨"text", "", "Введите ваше сообщение...", [], "", true, none⟩ =
      ((⟨"text", "", "Введите ваше сообщение...", [], "", true, none⟩ :
        PageInput).value, 0) :=
  ⟨⟨by decide, by decide⟩,
    claim_C9 ⟨"Иван", "89001234567", "ivan@mail.ru"⟩
      ⟨"text", "", "Введите ваше сообщение...", [], "", true, none⟩
      (by decide) (by decide)⟩
